import Mathlib

/-!
Shallow embedding of the REBA ergonomic scoring engine of this repository
(`src/ergonomics-utils.ts`, together with the guarded variant of the score
composer found in the alternate source file referred to below as the
"guarded variant").  JavaScript numbers are modelled as `ℚ` (angles, times,
frequencies) and `ℤ` (scores, indices); a JavaScript value that may be
`undefined`/`NaN` is modelled as an `Option`.  Array indexing `a[i]` is
modelled by `listGet?`, which returns `none` exactly when JavaScript would
yield `undefined` (negative or too-large index).
-/

namespace Reba

/-- Association-list lookup with a default, modelling `bins[key] || 0` on a
JavaScript object: the first entry with the key wins, a missing key gives
the default. -/
def lookupD (bins : List (String × ℚ)) (key : String) (dflt : ℚ) : ℚ :=
  match bins with
  | [] => dflt
  | p :: rest => if p.1 = key then p.2 else lookupD rest key dflt

/-- Modelling `if (bins.hasOwnProperty(k)) bins[k] += dt; else bins[k] = dt;`
on a JavaScript object represented as an association list with unique keys. -/
def addToBin (bins : List (String × ℚ)) (key : String) (dt : ℚ) : List (String × ℚ) :=
  match bins with
  | [] => [(key, dt)]
  | p :: rest => if p.1 = key then (p.1, p.2 + dt) :: rest else p :: addToBin rest key dt

/-- JavaScript array access `a[i]` with an integer index: `undefined`
(modelled as `none`) when the index is negative or not below the length. -/
def listGet? {α : Type} (l : List α) (i : ℤ) : Option α :=
  if 0 ≤ i then l.get? i.toNat else none

/-- Two-level array access `a[i][j]`. -/
def listGet2? (l : List (List ℤ)) (i j : ℤ) : Option ℤ :=
  (listGet? l i).bind fun row => listGet? row j

/-- Three-level array access `a[i][j][k]`. -/
def listGet3? (l : List (List (List ℤ))) (i j k : ℤ) : Option ℤ :=
  (listGet? l i).bind fun m => listGet2? m j k

/-- The six tracked body segments (the keys of `REBA_ANGLE_BINS`). -/
inductive ComponentKey
  | trunk
  | neck
  | legs
  | arm
  | forearm
  | wrist
deriving DecidableEq, Repr

/-- The parsed form of a bin-range label: `"lo-hi"` parses to `closed lo hi`,
`"lo+"` parses to `plus lo`, and a label that does not parse to numbers
(the legs labels `"bilateral"`/`"unilateral"`) behaves like `invalid`
since every comparison against `NaN` is false in JavaScript. -/
inductive RebaRange
  | closed (lo hi : ℤ)
  | plus (lo : ℤ)
  | invalid
deriving DecidableEq, Repr

/-- One entry of a `REBA_ANGLE_BINS` table: the label string, the range the
label denotes, and the REBA sub-score of the bin. -/
structure AngleBin where
  label : String
  range : RebaRange
  score : ℤ
deriving DecidableEq, Repr

/-- The `REBA_ANGLE_BINS` constant of the source, with each bin label paired
with its parsed range and declared score, in declaration order. -/
def REBA_ANGLE_BINS : ComponentKey → List AngleBin
  | ComponentKey.trunk =>
      [⟨"0-20", RebaRange.closed 0 20, 1⟩, ⟨"21-60", RebaRange.closed 21 60, 2⟩,
       ⟨"61+", RebaRange.plus 61, 3⟩]
  | ComponentKey.neck =>
      [⟨"0-20", RebaRange.closed 0 20, 1⟩, ⟨"21+", RebaRange.plus 21, 2⟩]
  | ComponentKey.legs =>
      [⟨"bilateral", RebaRange.invalid, 1⟩, ⟨"unilateral", RebaRange.invalid, 2⟩]
  | ComponentKey.arm =>
      [⟨"0-20", RebaRange.closed 0 20, 1⟩, ⟨"21-60", RebaRange.closed 21 60, 2⟩,
       ⟨"61+", RebaRange.plus 61, 3⟩]
  | ComponentKey.forearm =>
      [⟨"0-20", RebaRange.closed 0 20, 1⟩, ⟨"21-60", RebaRange.closed 21 60, 2⟩,
       ⟨"61+", RebaRange.plus 61, 3⟩]
  | ComponentKey.wrist =>
      [⟨"0-20", RebaRange.closed 0 20, 1⟩, ⟨"21-60", RebaRange.closed 21 60, 2⟩,
       ⟨"61+", RebaRange.plus 61, 3⟩]

/-- The scan loop of `getRebaAngleBin`: the first declared bin whose range
contains the absolute angle wins; a `"lo+"` range matches when
`absAngle >= lo`, a `"lo-hi"` range when `lo <= absAngle <= hi`, and an
unparsable range never matches. -/
def findBin (absAngle : ℚ) : List AngleBin → Option String
  | [] => none
  | b :: rest =>
      match b.range with
      | RebaRange.closed lo hi =>
          if (lo : ℚ) ≤ absAngle ∧ absAngle ≤ (hi : ℚ) then some b.label
          else findBin absAngle rest
      | RebaRange.plus lo =>
          if (lo : ℚ) ≤ absAngle then some b.label else findBin absAngle rest
      | RebaRange.invalid => findBin absAngle rest

/-- `getRebaAngleBin` of the source: classify an angle into a declared bin
label, falling back to `"0-20"` when no declared range matches. -/
def getRebaAngleBin (angle : ℚ) (component : ComponentKey) : String :=
  match findBin |angle| (REBA_ANGLE_BINS component) with
  | some label => label
  | none => "0-20"

/-- `getLegsBin` of the source, over the y coordinates of the two hips and
knees: both knees strictly below (greater y than) their hips is the proxy
for an unstable posture. -/
def getLegsBin (leftHipY rightHipY leftKneeY rightKneeY : ℚ) : String :=
  if leftKneeY > leftHipY ∧ rightKneeY > rightHipY then "unilateral" else "bilateral"

/-- The loop body of `calculateScoreFromBins`: the running pair is
`(maxTime, scoreForMaxTime)`, replaced only when this bin's accumulated
time strictly exceeds the running maximum. -/
def binFoldStep (bins : List (String × ℚ)) (acc : ℚ × ℤ) (b : AngleBin) : ℚ × ℤ :=
  let time := lookupD bins b.label 0
  if acc.1 < time then (time, b.score) else acc

/-- `calculateScoreFromBins` of the source: fold over the declared bins of
the component starting from `maxTime = 0`, `scoreForMaxTime = 0`, keeping
the score of the first bin whose accumulated time strictly exceeds the
running maximum. -/
def calculateScoreFromBins (bins : List (String × ℚ)) (component : ComponentKey) : ℤ :=
  (List.foldl (binFoldStep bins) ((0 : ℚ), (0 : ℤ)) (REBA_ANGLE_BINS component)).2

/-- The first declared bin whose accumulated time equals the given maximum,
in declaration order; used by `specDominantBinScore`. -/
def specFirstMaxBin (bins : List (String × ℚ)) (maxTime : ℚ) : List AngleBin → Option AngleBin
  | [] => none
  | b :: rest =>
      if lookupD bins b.label 0 = maxTime then some b
      else specFirstMaxBin bins maxTime rest

/-- Stated from the specification for comparison with
`calculateScoreFromBins`: the table-declared score of whichever declared bin
holds the maximum accumulated time, ties resolving to the first bin in
declaration order. -/
def specDominantBinScore (bins : List (String × ℚ)) (component : ComponentKey) : ℤ :=
  ((specFirstMaxBin bins
      (((REBA_ANGLE_BINS component).map fun b => lookupD bins b.label 0).foldl max 0)
      (REBA_ANGLE_BINS component)).map AngleBin.score).getD 0

/-- The per-segment record of `RebaData` (angle, exposure bookkeeping, bins
and derived score). -/
structure SegmentState where
  angle : Option ℚ
  exposureTime : ℚ
  frequency : ℚ
  lastChangeTime : ℚ
  eventCount : ℤ
  score : ℤ
  exposureTimeBins : List (String × ℚ)
deriving DecidableEq, Repr

/-- The significant-change threshold `CHANGE_THRESHOLD` (degrees). -/
def CHANGE_THRESHOLD : ℚ := 5

/-- The `updateComponent` closure of `updateRebaData`.  For the legs the
source derives the bin from the landmark heuristic `getLegsBin` rather than
from the angle; that externally computed label is taken here as the
`legsBin` argument. -/
def updateComponent (key : ComponentKey) (legsBin : String) (st : SegmentState)
    (newAngle : Option ℚ) (currentTime deltaTime : ℚ) : SegmentState :=
  match newAngle with
  | none =>
      { st with
        score := calculateScoreFromBins st.exposureTimeBins key
        angle := none }
  | some a =>
      let currentAngle := |a|
      let angleChanged := |currentAngle - (st.angle.getD currentAngle)| > CHANGE_THRESHOLD
      let eventCount := if angleChanged then st.eventCount + 1 else st.eventCount
      let lastChangeTime := if angleChanged then currentTime else st.lastChangeTime
      let exposureTime := st.exposureTime + deltaTime
      let bin := if key = ComponentKey.legs then legsBin else getRebaAngleBin currentAngle key
      let exposureTimeBins := addToBin st.exposureTimeBins bin deltaTime
      let totalTimeInMinutes := exposureTime / 60
      let frequency := if totalTimeInMinutes > 0 then (eventCount : ℚ) / totalTimeInMinutes else 0
      { angle := some currentAngle
        exposureTime := exposureTime
        frequency := frequency
        lastChangeTime := lastChangeTime
        eventCount := eventCount
        score := calculateScoreFromBins exposureTimeBins key
        exposureTimeBins := exposureTimeBins }

/-- The trunk segment of `initialRebaData`. -/
def initialTrunkSegment : SegmentState :=
  { angle := none, exposureTime := 0, frequency := 0, lastChangeTime := 0,
    eventCount := 0, score := 0,
    exposureTimeBins := [("0-20", 0), ("21-60", 0), ("61+", 0)] }

/-- The neck segment of `initialRebaData`. -/
def initialNeckSegment : SegmentState :=
  { angle := none, exposureTime := 0, frequency := 0, lastChangeTime := 0,
    eventCount := 0, score := 0,
    exposureTimeBins := [("0-20", 0), ("21+", 0)] }

/-- The legs segment of `initialRebaData`. -/
def initialLegsSegment : SegmentState :=
  { angle := none, exposureTime := 0, frequency := 0, lastChangeTime := 0,
    eventCount := 0, score := 0,
    exposureTimeBins := [("bilateral", 0), ("unilateral", 0)] }

/-- Table A of `updateRebaData`, indexed `[legsIdx][trunkIdx][neckIdx]`. -/
def tableA : List (List (List ℤ)) :=
  [[[1, 2, 3, 4], [2, 3, 4, 5], [3, 4, 5, 6], [4, 5, 6, 7], [5, 6, 7, 8]],
   [[1, 2, 3, 4], [3, 4, 5, 6], [4, 5, 6, 7], [5, 6, 7, 8], [6, 7, 8, 9]]]

/-- Table B of `updateRebaData`: the literal groups entries as
`[wristIdx][armIdx][forearmIdx]` (six arm rows of two forearm columns per
wrist level). -/
def tableB : List (List (List ℤ)) :=
  [[[1, 1], [2, 2], [2, 3], [3, 4], [4, 5], [5, 6]],
   [[1, 2], [2, 3], [3, 4], [4, 5], [5, 6], [6, 7]],
   [[3, 4], [4, 5], [5, 5], [5, 6], [6, 7], [7, 8]]]

/-- Table C of `updateRebaData`, a 12 by 12 matrix indexed
`[scoreAIdx][scoreBIdx]`. -/
def tableC : List (List ℤ) :=
  [[1, 1, 1, 2, 3, 3, 4, 5, 6, 7, 7, 7],
   [1, 2, 2, 3, 4, 4, 5, 6, 6, 7, 7, 8],
   [2, 3, 3, 3, 4, 5, 6, 7, 7, 8, 8, 8],
   [3, 4, 4, 4, 5, 6, 7, 8, 8, 9, 9, 9],
   [4, 4, 4, 5, 6, 7, 8, 8, 9, 9, 9, 9],
   [6, 6, 6, 7, 8, 8, 9, 9, 10, 10, 10, 10],
   [7, 7, 7, 8, 9, 9, 9, 10, 10, 11, 11, 11],
   [8, 8, 8, 9, 10, 10, 10, 10, 10, 11, 11, 11],
   [9, 9, 9, 10, 10, 10, 11, 11, 11, 12, 12, 12],
   [10, 10, 10, 11, 11, 11, 11, 12, 12, 12, 12, 12],
   [11, 11, 11, 11, 12, 12, 12, 12, 12, 12, 12, 12],
   [12, 12, 12, 12, 12, 12, 12, 12, 12, 12, 12, 12]]

/-- Neck adjustment for Table A: add 1 when twisted, capped at 6. -/
def adjustedNeckScoreA (score : ℤ) (twisted : Bool) : ℤ :=
  if twisted then (if score + 1 > 6 then 6 else score + 1) else score

/-- Trunk adjustment for Table A: add 1 when twisted, capped at 6. -/
def adjustedTrunkScoreA (score : ℤ) (twisted : Bool) : ℤ :=
  if twisted then (if score + 1 > 6 then 6 else score + 1) else score

/-- Upper-arm adjustment for Table B: add 1 when the shoulder is raised
(capped at 6), add 1 when the arm is abducted (capped at 6), subtract 1 when
the arm is supported (floored at 1), in that order. -/
def adjustedUpperArmScoreB (score : ℤ) (raised abducted supported : Bool) : ℤ :=
  let s1 := if raised then (if score + 1 > 6 then 6 else score + 1) else score
  let s2 := if abducted then (if s1 + 1 > 6 then 6 else s1 + 1) else s1
  if supported then (if s2 - 1 < 1 then 1 else s2 - 1) else s2

/-- Wrist adjustment for Table B: add 1 when bent (capped at 3), add 1 when
twisted (capped at 3). -/
def adjustedWristScoreB (score : ℤ) (bent twisted : Bool) : ℤ :=
  let s1 := if bent then (if score + 1 > 3 then 3 else score + 1) else score
  if twisted then (if s1 + 1 > 3 then 3 else s1 + 1) else s1

/-- `neckIdxA` of the consolidated source: `Math.min(adjusted - 1, 5)`,
with no lower clamp. -/
def neckIdxA (adjusted : ℤ) : ℤ := min (adjusted - 1) 5

/-- `trunkIdxA` of the consolidated source: `Math.min(adjusted - 1, 4)`. -/
def trunkIdxA (adjusted : ℤ) : ℤ := min (adjusted - 1) 4

/-- `legsIdxA` of the consolidated source: `legsScorePostural - 1`, with no
clamping at all. -/
def legsIdxA (legsScorePostural : ℤ) : ℤ := legsScorePostural - 1

/-- `armIdxB` of the consolidated source: `Math.min(adjusted - 1, 5)`. -/
def armIdxB (adjusted : ℤ) : ℤ := min (adjusted - 1) 5

/-- `forearmIdxB` of the consolidated source: `Math.min(adjusted - 1, 1)`. -/
def forearmIdxB (adjusted : ℤ) : ℤ := min (adjusted - 1) 1

/-- `wristIdxB` of the consolidated source: `Math.min(adjusted - 1, 2)`. -/
def wristIdxB (adjusted : ℤ) : ℤ := min (adjusted - 1) 2

/-- `scoreAIdx` of the consolidated source: `Math.min(postureScoreA - 1, 11)`. -/
def scoreAIdx (postureScoreA : ℤ) : ℤ := min (postureScoreA - 1) 11

/-- `scoreBIdx` of the consolidated source: `Math.min(postureScoreB - 1, 11)`. -/
def scoreBIdx (postureScoreB : ℤ) : ℤ := min (postureScoreB - 1) 11

/-- `neckIdxA` of the guarded variant: `Math.max(0, Math.min(5, adjusted - 1))`. -/
def clampedNeckIdxA (adjusted : ℤ) : ℤ := max 0 (min 5 (adjusted - 1))

/-- `trunkIdxA` of the guarded variant: `Math.max(0, Math.min(4, adjusted - 1))`. -/
def clampedTrunkIdxA (adjusted : ℤ) : ℤ := max 0 (min 4 (adjusted - 1))

/-- `legsIdxA` of the guarded variant: `Math.max(0, Math.min(1, legsScore - 1))`. -/
def clampedLegsIdxA (legsScorePostural : ℤ) : ℤ := max 0 (min 1 (legsScorePostural - 1))

/-- `armIdxB` of the guarded variant: `Math.max(0, Math.min(5, adjusted - 1))`. -/
def clampedArmIdxB (adjusted : ℤ) : ℤ := max 0 (min 5 (adjusted - 1))

/-- `forearmIdxB` of the guarded variant: `Math.max(0, Math.min(1, adjusted - 1))`. -/
def clampedForearmIdxB (adjusted : ℤ) : ℤ := max 0 (min 1 (adjusted - 1))

/-- `wristIdxB` of the guarded variant: `Math.max(0, Math.min(2, adjusted - 1))`. -/
def clampedWristIdxB (adjusted : ℤ) : ℤ := max 0 (min 2 (adjusted - 1))

/-- `scoreAIdx` of the guarded variant: `Math.max(0, Math.min(11, score - 1))`. -/
def clampedScoreAIdx (postureScoreA : ℤ) : ℤ := max 0 (min 11 (postureScoreA - 1))

/-- `scoreBIdx` of the guarded variant: `Math.max(0, Math.min(11, score - 1))`. -/
def clampedScoreBIdx (postureScoreB : ℤ) : ℤ := max 0 (min 11 (postureScoreB - 1))

/-- The inputs of the score-composition tail of `updateRebaData`: the six
per-segment postural scores, the adjustment flags, the externally supplied
force/load base, the activity score carried in the state, and the trunk/neck
frequency and exposure-time statistics. -/
structure ScoreInputs where
  trunkScore : ℤ
  neckScore : ℤ
  legsScore : ℤ
  armScore : ℤ
  forearmScore : ℤ
  wristScore : ℤ
  neckTwisted : Bool
  trunkTwisted : Bool
  shoulderRaised : Bool
  armAbducted : Bool
  armSupported : Bool
  wristBent : Bool
  wristTwisted : Bool
  forceLoadScore : ℤ
  activityScore : ℤ
  trunkFrequency : ℚ
  neckFrequency : ℚ
  trunkExposureTime : ℚ
  neckExposureTime : ℚ
deriving DecidableEq, Repr

/-- The outputs of the consolidated score composer.  Fields produced by a
table lookup are `Option ℤ`: `none` models the JavaScript `undefined`/`NaN`
that an out-of-range access produces and propagates. -/
structure ScoreOutputs where
  postureScoreA : Option ℤ
  postureScoreB : Option ℤ
  tableCScore : Option ℤ
  forceLoadScore : ℤ
  couplingScore : ℤ
  activityScore : ℤ
  rebaScoreFinal : Option ℤ
deriving DecidableEq, Repr

/-- The score-composition tail of `updateRebaData` in the consolidated
source: unguarded lookups `tableA[legsIdxA][trunkIdxA][neckIdxA]`,
`tableB[wristIdxB][forearmIdxB][armIdxB]` (note the forearm index selecting
the arm level, as in the source) and `tableC[scoreAIdx][scoreBIdx]`, then
force/load, coupling and activity, then the final sum. -/
def updateRebaScores (st : ScoreInputs) : ScoreOutputs :=
  let adjNeck := adjustedNeckScoreA st.neckScore st.neckTwisted
  let adjTrunk := adjustedTrunkScoreA st.trunkScore st.trunkTwisted
  let postureScoreA := listGet3? tableA (legsIdxA st.legsScore) (trunkIdxA adjTrunk) (neckIdxA adjNeck)
  let adjArm := adjustedUpperArmScoreB st.armScore st.shoulderRaised st.armAbducted st.armSupported
  let adjForearm := st.forearmScore
  let adjWrist := adjustedWristScoreB st.wristScore st.wristBent st.wristTwisted
  let postureScoreB := listGet3? tableB (wristIdxB adjWrist) (forearmIdxB adjForearm) (armIdxB adjArm)
  let tableCScore :=
    match postureScoreA, postureScoreB with
    | some a, some b => listGet2? tableC (scoreAIdx a) (scoreBIdx b)
    | _, _ => none
  let forceLoadScoreAdjustment : ℤ :=
    if st.trunkFrequency > 10 ∨ st.neckFrequency > 10 then 1 else 0
  let forceLoadScore := min (st.forceLoadScore + forceLoadScoreAdjustment) 2
  let couplingScore : ℤ := if st.wristBent || st.wristTwisted then 2 else 0
  let scoreCAdjusted := tableCScore.map fun c => c + forceLoadScore + couplingScore
  let activityScore : ℤ :=
    if st.trunkExposureTime > 60 ∨ st.neckExposureTime > 60 ∨
        st.trunkFrequency > 4 ∨ st.neckFrequency > 4 then 1 else 0
  let rebaScoreFinal := scoreCAdjusted.map fun c => c + activityScore
  { postureScoreA := postureScoreA
    postureScoreB := postureScoreB
    tableCScore := tableCScore
    forceLoadScore := forceLoadScore
    couplingScore := couplingScore
    activityScore := activityScore
    rebaScoreFinal := rebaScoreFinal }

/-- The outputs of the guarded score composer, all plain integers because
every lookup is guarded with a 0 substitution. -/
structure GuardedScoreOutputs where
  postureScoreA : ℤ
  postureScoreB : ℤ
  tableCScore : ℤ
  forceLoadScore : ℤ
  couplingScore : ℤ
  rebaScoreFinal : ℤ
deriving DecidableEq, Repr

/-- The score-composition tail of `updateRebaData` in the guarded variant:
indices clamped with `Math.max(0, Math.min(bound, idx))`, Table A and
Table B lookups (`tableB[wristIdxB][armIdxB][forearmIdxB]` there) guarded
by existence and number checks substituting 0, Table C guarded by explicit
bounds checks on the index and row length, and the activity score taken
from the state (the variant computes it earlier).  The trailing `isNaN`
re-checks of the variant are identities in this integer model. -/
def updateRebaScoresGuarded (st : ScoreInputs) : GuardedScoreOutputs :=
  let adjNeck := adjustedNeckScoreA st.neckScore st.neckTwisted
  let adjTrunk := adjustedTrunkScoreA st.trunkScore st.trunkTwisted
  let postureScoreA :=
    (listGet3? tableA (clampedLegsIdxA st.legsScore) (clampedTrunkIdxA adjTrunk)
      (clampedNeckIdxA adjNeck)).getD 0
  let adjArm := adjustedUpperArmScoreB st.armScore st.shoulderRaised st.armAbducted st.armSupported
  let adjWrist := adjustedWristScoreB st.wristScore st.wristBent st.wristTwisted
  let postureScoreB :=
    (listGet3? tableB (clampedWristIdxB adjWrist) (clampedArmIdxB adjArm)
      (clampedForearmIdxB st.forearmScore)).getD 0
  let sA := clampedScoreAIdx postureScoreA
  let sB := clampedScoreBIdx postureScoreB
  let tableCScore :=
    if 0 ≤ sA ∧ sA < (tableC.length : ℤ) then
      match listGet? tableC sA with
      | some row => if 0 ≤ sB ∧ sB < (row.length : ℤ) then (listGet? row sB).getD 0 else 0
      | none => 0
    else 0
  let forceLoadScoreAdjustment : ℤ :=
    if st.trunkFrequency > 10 ∨ st.neckFrequency > 10 then 1 else 0
  let forceLoadScore := min (st.forceLoadScore + forceLoadScoreAdjustment) 2
  let couplingScore : ℤ := if st.wristBent || st.wristTwisted then 2 else 0
  let scoreCAdjusted := tableCScore + forceLoadScore + couplingScore
  let rebaScoreFinal := scoreCAdjusted + st.activityScore
  { postureScoreA := postureScoreA
    postureScoreB := postureScoreB
    tableCScore := tableCScore
    forceLoadScore := forceLoadScore
    couplingScore := couplingScore
    rebaScoreFinal := rebaScoreFinal }

/-- Score inputs with every postural score 0 and everything else neutral:
the value of every segment score at initialization, before any exposure has
been binned. -/
def zeroScoreInputs : ScoreInputs :=
  { trunkScore := 0, neckScore := 0, legsScore := 0, armScore := 0,
    forearmScore := 0, wristScore := 0,
    neckTwisted := false, trunkTwisted := false, shoulderRaised := false,
    armAbducted := false, armSupported := false, wristBent := false,
    wristTwisted := false, forceLoadScore := 0, activityScore := 0,
    trunkFrequency := 0, neckFrequency := 0,
    trunkExposureTime := 0, neckExposureTime := 0 }

/-- Score inputs with every postural score 1 and everything else neutral. -/
def oneScoreInputs : ScoreInputs :=
  { trunkScore := 1, neckScore := 1, legsScore := 1, armScore := 1,
    forearmScore := 1, wristScore := 1,
    neckTwisted := false, trunkTwisted := false, shoulderRaised := false,
    armAbducted := false, armSupported := false, wristBent := false,
    wristTwisted := false, forceLoadScore := 0, activityScore := 0,
    trunkFrequency := 0, neckFrequency := 0,
    trunkExposureTime := 0, neckExposureTime := 0 }

/-- Score inputs with an upper-arm postural score of 3 (a value the REBA
table is supposed to support) and every other postural score 1. -/
def armThreeScoreInputs : ScoreInputs :=
  { trunkScore := 1, neckScore := 1, legsScore := 1, armScore := 3,
    forearmScore := 1, wristScore := 1,
    neckTwisted := false, trunkTwisted := false, shoulderRaised := false,
    armAbducted := false, armSupported := false, wristBent := false,
    wristTwisted := false, forceLoadScore := 0, activityScore := 0,
    trunkFrequency := 0, neckFrequency := 0,
    trunkExposureTime := 0, neckExposureTime := 0 }

/-- Score inputs with a neck postural score of 6 and every other postural
score 1: the adjusted neck score maps to index 5, beyond the four neck
entries of a Table A row. -/
def neckSixScoreInputs : ScoreInputs :=
  { trunkScore := 1, neckScore := 6, legsScore := 1, armScore := 1,
    forearmScore := 1, wristScore := 1,
    neckTwisted := false, trunkTwisted := false, shoulderRaised := false,
    armAbducted := false, armSupported := false, wristBent := false,
    wristTwisted := false, forceLoadScore := 0, activityScore := 0,
    trunkFrequency := 0, neckFrequency := 0,
    trunkExposureTime := 0, neckExposureTime := 0 }

/-- A landmark as consumed by the engine: coordinates and visibility are
each `none` when the JavaScript value is absent or `NaN`. -/
structure NormalizedLandmark where
  x : Option ℚ
  y : Option ℚ
  visibility : Option ℚ
deriving DecidableEq, Repr

/-- The visibility threshold constant of the source (0.3). -/
def VISIBILITY_THRESHOLD : ℚ := 3 / 10

/-- `isLandmarkDetected` of the source: a numeric visibility is compared
with the threshold; otherwise the landmark counts as detected when both
coordinates are well-formed numbers. -/
def isLandmarkDetected (landmark : NormalizedLandmark) : Bool :=
  match landmark.visibility with
  | some vis => decide (vis ≥ VISIBILITY_THRESHOLD)
  | none => landmark.x.isSome && landmark.y.isSome

/-- JavaScript comparison `a >= b` on possibly-`NaN` numbers: false unless
both are numbers. -/
def geQ : Option ℚ → Option ℚ → Bool
  | some a, some b => decide (a ≥ b)
  | _, _ => false

/-- JavaScript comparison `a > b` on possibly-`NaN` numbers: false unless
both are numbers. -/
def gtQ : Option ℚ → Option ℚ → Bool
  | some a, some b => decide (a > b)
  | _, _ => false

/-- The three possible head references of `calculateNeckAngle`. -/
inductive HeadRef
  | leftEar
  | rightEar
  | nose
deriving DecidableEq, Repr

/-- The head-reference selection block of `calculateNeckAngle`: the
if/else-if chain over the visibility comparisons and detection flags.
`none` models the `headReference === null` path, on which the function
returns `NaN`. -/
def selectHeadReference (leftEar rightEar nose : NormalizedLandmark) : Option HeadRef :=
  let leftEarVisIsNum := leftEar.visibility.isSome
  let rightEarVisIsNum := rightEar.visibility.isSome
  let noseVisIsNum := nose.visibility.isSome
  let leftEarDetected := isLandmarkDetected leftEar
  let rightEarDetected := isLandmarkDetected rightEar
  let noseDetected := isLandmarkDetected nose
  if leftEarVisIsNum && rightEarVisIsNum && geQ leftEar.visibility rightEar.visibility &&
      geQ leftEar.visibility nose.visibility then
    (if leftEarDetected then some HeadRef.leftEar else none)
  else if rightEarVisIsNum && leftEarVisIsNum && geQ rightEar.visibility leftEar.visibility &&
      geQ rightEar.visibility nose.visibility then
    (if rightEarDetected then some HeadRef.rightEar else none)
  else if noseVisIsNum && gtQ nose.visibility leftEar.visibility &&
      gtQ nose.visibility rightEar.visibility then
    (if noseDetected then some HeadRef.nose else none)
  else if leftEarDetected then some HeadRef.leftEar
  else if rightEarDetected then some HeadRef.rightEar
  else if noseDetected then some HeadRef.nose
  else none

/-- The guard of the first branch of the selection chain: both ear
visibilities numeric, left at least right, and left at least the nose
visibility (numerically). -/
def earRuleLeftHolds (leftEar rightEar nose : NormalizedLandmark) : Bool :=
  leftEar.visibility.isSome && rightEar.visibility.isSome &&
    geQ leftEar.visibility rightEar.visibility && geQ leftEar.visibility nose.visibility

/-- The guard of the second branch of the selection chain. -/
def earRuleRightHolds (leftEar rightEar nose : NormalizedLandmark) : Bool :=
  rightEar.visibility.isSome && leftEar.visibility.isSome &&
    geQ rightEar.visibility leftEar.visibility && geQ rightEar.visibility nose.visibility

/-- The guard of the third branch of the selection chain: numeric nose
visibility strictly above both ear visibilities. -/
def noseRuleHolds (leftEar rightEar nose : NormalizedLandmark) : Bool :=
  nose.visibility.isSome && gtQ nose.visibility leftEar.visibility &&
    gtQ nose.visibility rightEar.visibility

/-- The fallback of the selection priority as the specification words it,
used by `selectHeadReferenceSpec`: the nose first, then the declared
fallback order left ear, right ear, nose, first detected wins. -/
def specHeadFallback (leftEar rightEar nose : NormalizedLandmark) : Option HeadRef :=
  if isLandmarkDetected nose then some HeadRef.nose
  else if isLandmarkDetected leftEar then some HeadRef.leftEar
  else if isLandmarkDetected rightEar then some HeadRef.rightEar
  else none

/-- Stated from the specification for comparison with
`selectHeadReference`: the ear with higher visibility whenever both ears
have numeric visibility and at least one clears the threshold; else the
nose; else the fallback order left ear, right ear, nose, first detected
wins. -/
def selectHeadReferenceSpec (leftEar rightEar nose : NormalizedLandmark) : Option HeadRef :=
  match leftEar.visibility, rightEar.visibility with
  | some lv, some rv =>
      if lv ≥ VISIBILITY_THRESHOLD ∨ rv ≥ VISIBILITY_THRESHOLD then
        (if lv ≥ rv then some HeadRef.leftEar else some HeadRef.rightEar)
      else specHeadFallback leftEar rightEar nose
  | _, _ => specHeadFallback leftEar rightEar nose

/-- Counterexample left ear: visibility 0.4, coordinates present. -/
def ceLeftEar : NormalizedLandmark := ⟨some 0, some 0, some (2 / 5)⟩

/-- Counterexample right ear: visibility 0.35, coordinates present. -/
def ceRightEar : NormalizedLandmark := ⟨some 0, some 0, some (7 / 20)⟩

/-- Counterexample nose: visibility 0.9, coordinates present. -/
def ceNose : NormalizedLandmark := ⟨some 0, some 0, some (9 / 10)⟩

/-- `getRebaRiskLevel` of the source. -/
def getRebaRiskLevel (rebaScore : ℚ) : String :=
  if rebaScore ≤ 1 then "negligible risk, no action required"
  else if rebaScore ≤ 3 then "low risk, change may be needed"
  else if rebaScore ≤ 7 then "medium risk, further investigation, change soon"
  else if rebaScore ≤ 10 then "high risk, investigate and implement change"
  else "very high risk, implement change"

/-! ## Helper lemmas -/

lemma le_foldl_max (f : AngleBin → ℚ) (l : List AngleBin) (m : ℚ) :
    m ≤ (l.map f).foldl max m := by
  induction l generalizing m with
  | nil => simp
  | cons b rest ih =>
      simp only [List.map_cons, List.foldl_cons]
      exact le_trans (le_max_left m (f b)) (ih (max m (f b)))

lemma mem_le_foldl_max (f : AngleBin → ℚ) (l : List AngleBin) (m : ℚ) :
    ∀ b ∈ l, f b ≤ (l.map f).foldl max m := by
  induction l generalizing m with
  | nil => intro b hb; simp at hb
  | cons c rest ih =>
      intro b hb
      simp only [List.map_cons, List.foldl_cons]
      rcases List.mem_cons.mp hb with rfl | hb2
      · exact le_trans (le_max_right m (f b)) (le_foldl_max f rest (max m (f b)))
      · exact ih (max m (f c)) b hb2

lemma binFold_const (bins : List (String × ℚ)) (l : List AngleBin) (m : ℚ) (s : ℤ)
    (h : ∀ b ∈ l, lookupD bins b.label 0 ≤ m) :
    List.foldl (binFoldStep bins) (m, s) l = (m, s) := by
  induction l with
  | nil => rfl
  | cons b rest ih =>
      simp only [List.foldl_cons, binFoldStep]
      rw [if_neg (not_lt.mpr (h b (List.mem_cons_self b rest)))]
      exact ih fun c hc => h c (List.mem_cons_of_mem _ hc)

lemma binFold_firstMax (bins : List (String × ℚ)) :
    ∀ (l : List AngleBin) (m : ℚ) (s : ℤ),
      m < ((l.map fun b => lookupD bins b.label 0).foldl max m) →
      (List.foldl (binFoldStep bins) (m, s) l).2 =
        ((specFirstMaxBin bins ((l.map fun b => lookupD bins b.label 0).foldl max m)
            l).map AngleBin.score).getD 0 := by
  intro l
  induction l with
  | nil => intro m s h; simp at h
  | cons b rest ih =>
      intro m s h
      simp only [List.map_cons, List.foldl_cons, binFoldStep, specFirstMaxBin] at h ⊢
      by_cases hmb : m < lookupD bins b.label 0
      · rw [if_pos hmb]
        rw [max_eq_right hmb.le] at h ⊢
        by_cases hrest :
            lookupD bins b.label 0 <
              (rest.map fun c => lookupD bins c.label 0).foldl max (lookupD bins b.label 0)
        · rw [ih (lookupD bins b.label 0) b.score hrest, if_neg (ne_of_lt hrest)]
        · have hM : (rest.map fun c => lookupD bins c.label 0).foldl max
              (lookupD bins b.label 0) = lookupD bins b.label 0 :=
            le_antisymm (not_lt.mp hrest)
              (le_foldl_max (fun c => lookupD bins c.label 0) rest (lookupD bins b.label 0))
          rw [hM]
          rw [binFold_const bins rest (lookupD bins b.label 0) b.score
            (fun c hc => hM ▸ mem_le_foldl_max (fun d => lookupD bins d.label 0) rest
              (lookupD bins b.label 0) c hc)]
          rw [if_pos rfl]
          rfl
      · rw [if_neg hmb]
        rw [max_eq_left (not_lt.mp hmb)] at h ⊢
        rw [ih m s h]
        rw [if_neg fun he => hmb (lt_of_lt_of_le h (le_of_eq he.symm))]

lemma binFold_congr (bins1 bins2 : List (String × ℚ))
    (h : ∀ lbl, lookupD bins1 lbl 0 = lookupD bins2 lbl 0) :
    ∀ (l : List AngleBin) (acc : ℚ × ℤ),
      List.foldl (binFoldStep bins1) acc l = List.foldl (binFoldStep bins2) acc l := by
  intro l
  induction l with
  | nil => intro acc; rfl
  | cons b rest ih =>
      intro acc
      simp only [List.foldl_cons, binFoldStep, h]
      exact ih _

lemma calculateScoreFromBins_congr (bins1 bins2 : List (String × ℚ)) (key : ComponentKey)
    (h : ∀ lbl, lookupD bins1 lbl 0 = lookupD bins2 lbl 0) :
    calculateScoreFromBins bins1 key = calculateScoreFromBins bins2 key := by
  unfold calculateScoreFromBins
  rw [binFold_congr bins1 bins2 h]

lemma lookupD_addToBin_zero (bins : List (String × ℚ)) (key lbl : String) :
    lookupD (addToBin bins key 0) lbl 0 = lookupD bins lbl 0 := by
  induction bins with
  | nil =>
      simp only [addToBin, lookupD]
      split <;> simp_all
  | cons p rest ih =>
      simp only [addToBin]
      by_cases hk : p.1 = key
      · rw [if_pos hk]
        simp only [lookupD, add_zero]
      · rw [if_neg hk]
        simp only [lookupD, ih]

lemma tableA_lookup_isSome_iff (i j k : ℤ) (hi0 : 0 ≤ i) (hi1 : i ≤ 1) (hj0 : 0 ≤ j)
    (hj4 : j ≤ 4) (hk0 : 0 ≤ k) (hk5 : k ≤ 5) :
    ((listGet3? tableA i j k).isSome ↔ k ≤ 3) := by
  interval_cases i <;> interval_cases j <;> interval_cases k <;> decide

lemma tableB_lookup_isSome (i j k : ℤ) (hi0 : 0 ≤ i) (hi2 : i ≤ 2) (hj0 : 0 ≤ j)
    (hj5 : j ≤ 5) (hk0 : 0 ≤ k) (hk1 : k ≤ 1) :
    (listGet3? tableB i j k).isSome := by
  interval_cases i <;> interval_cases j <;> interval_cases k <;> decide

lemma tableC_lookup_isSome (i j : ℤ) (hi0 : 0 ≤ i) (hi11 : i ≤ 11) (hj0 : 0 ≤ j)
    (hj11 : j ≤ 11) :
    (listGet2? tableC i j).isSome := by
  interval_cases i <;> interval_cases j <;> decide

lemma tableA_entry_range (i j k : ℤ) (hi0 : 0 ≤ i) (hi1 : i ≤ 1) (hj0 : 0 ≤ j) (hj4 : j ≤ 4)
    (hk0 : 0 ≤ k) (hk5 : k ≤ 5) :
    0 ≤ (listGet3? tableA i j k).getD 0 ∧ (listGet3? tableA i j k).getD 0 ≤ 9 := by
  interval_cases i <;> interval_cases j <;> interval_cases k <;> decide

lemma tableB_entry_range (i j k : ℤ) (hi0 : 0 ≤ i) (hi2 : i ≤ 2) (hj0 : 0 ≤ j) (hj5 : j ≤ 5)
    (hk0 : 0 ≤ k) (hk1 : k ≤ 1) :
    0 ≤ (listGet3? tableB i j k).getD 0 ∧ (listGet3? tableB i j k).getD 0 ≤ 8 := by
  interval_cases i <;> interval_cases j <;> interval_cases k <;> decide

lemma tableC_guarded_value (i j : ℤ) (hi0 : 0 ≤ i) (hi11 : i ≤ 11) (hj0 : 0 ≤ j)
    (hj11 : j ≤ 11) :
    1 ≤ (if 0 ≤ i ∧ i < (tableC.length : ℤ) then
          match listGet? tableC i with
          | some row => if 0 ≤ j ∧ j < (row.length : ℤ) then (listGet? row j).getD 0 else 0
          | none => 0
        else 0) ∧
    (if 0 ≤ i ∧ i < (tableC.length : ℤ) then
        match listGet? tableC i with
        | some row => if 0 ≤ j ∧ j < (row.length : ℤ) then (listGet? row j).getD 0 else 0
        | none => 0
      else 0) ≤ 12 := by
  interval_cases i <;> interval_cases j <;> decide

/-! ## Claim theorems -/

/-- Claim C1, counterexample to the claim as stated: in the consolidated
source the index computations clamp only from above, so the reachable
posture score 0 yields Table A indices of -1 (and produces an undefined
lookup result for the whole composer), a legs score of 20 yields index 19,
an arm score of 3 already overruns the transposed Table B access, and even
the guarded variant's neck clamp bound of 5 exceeds the four neck entries
of a Table A row. -/
theorem tableIdx_clamp_counterexample :
    neckIdxA (adjustedNeckScoreA 0 false) = -1 ∧
    ¬ (0 ≤ neckIdxA (adjustedNeckScoreA 0 false)) ∧
    trunkIdxA (adjustedTrunkScoreA 0 false) = -1 ∧
    legsIdxA 20 = 19 ∧ ¬ (legsIdxA 20 ≤ 1) ∧
    (updateRebaScores zeroScoreInputs).postureScoreA = none ∧
    (updateRebaScores zeroScoreInputs).rebaScoreFinal = none ∧
    armIdxB (adjustedUpperArmScoreB 3 false false false) = 2 ∧
    (updateRebaScores armThreeScoreInputs).postureScoreB = none ∧
    clampedNeckIdxA (adjustedNeckScoreA 6 false) = 5 ∧
    listGet3? tableA 0 0 5 = none ∧
    listGet3? tableA 0 0 4 = none := by
  decide

/-- Claim C1, amended: for every integer posture score in [-10, 20] fed
through the guarded variant's adjustment-and-clamp logic, every resulting
zero-based index lies in its declared clamp range (neck [0,5], trunk [0,4],
legs [0,1], arm [0,5], forearm [0,1], wrist [0,2], score A and B [0,11]);
the Table B and Table C lookups at those clamped indices always succeed,
while the Table A lookup succeeds exactly when the clamped neck index is at
most 3 (the neck clamp bound 5 exceeds the table's neck dimension of four
entries). -/
theorem tableIdx_clamp_safety (s : ℤ) (hlo : -10 ≤ s) (hhi : s ≤ 20)
    (ntw ttw raised abducted supported bent twisted : Bool) :
    (0 ≤ clampedNeckIdxA (adjustedNeckScoreA s ntw) ∧
      clampedNeckIdxA (adjustedNeckScoreA s ntw) ≤ 5) ∧
    (0 ≤ clampedTrunkIdxA (adjustedTrunkScoreA s ttw) ∧
      clampedTrunkIdxA (adjustedTrunkScoreA s ttw) ≤ 4) ∧
    (0 ≤ clampedLegsIdxA s ∧ clampedLegsIdxA s ≤ 1) ∧
    (0 ≤ clampedArmIdxB (adjustedUpperArmScoreB s raised abducted supported) ∧
      clampedArmIdxB (adjustedUpperArmScoreB s raised abducted supported) ≤ 5) ∧
    (0 ≤ clampedForearmIdxB s ∧ clampedForearmIdxB s ≤ 1) ∧
    (0 ≤ clampedWristIdxB (adjustedWristScoreB s bent twisted) ∧
      clampedWristIdxB (adjustedWristScoreB s bent twisted) ≤ 2) ∧
    (0 ≤ clampedScoreAIdx s ∧ clampedScoreAIdx s ≤ 11) ∧
    (0 ≤ clampedScoreBIdx s ∧ clampedScoreBIdx s ≤ 11) ∧
    (listGet3? tableB (clampedWristIdxB (adjustedWristScoreB s bent twisted))
      (clampedArmIdxB (adjustedUpperArmScoreB s raised abducted supported))
      (clampedForearmIdxB s)).isSome ∧
    (listGet2? tableC (clampedScoreAIdx s) (clampedScoreBIdx s)).isSome ∧
    ((listGet3? tableA (clampedLegsIdxA s) (clampedTrunkIdxA (adjustedTrunkScoreA s ttw))
        (clampedNeckIdxA (adjustedNeckScoreA s ntw))).isSome ↔
      clampedNeckIdxA (adjustedNeckScoreA s ntw) ≤ 3) := by
  have hn : 0 ≤ clampedNeckIdxA (adjustedNeckScoreA s ntw) ∧
      clampedNeckIdxA (adjustedNeckScoreA s ntw) ≤ 5 := by
    unfold clampedNeckIdxA; omega
  have ht : 0 ≤ clampedTrunkIdxA (adjustedTrunkScoreA s ttw) ∧
      clampedTrunkIdxA (adjustedTrunkScoreA s ttw) ≤ 4 := by
    unfold clampedTrunkIdxA; omega
  have hl : 0 ≤ clampedLegsIdxA s ∧ clampedLegsIdxA s ≤ 1 := by
    unfold clampedLegsIdxA; omega
  have ha : 0 ≤ clampedArmIdxB (adjustedUpperArmScoreB s raised abducted supported) ∧
      clampedArmIdxB (adjustedUpperArmScoreB s raised abducted supported) ≤ 5 := by
    unfold clampedArmIdxB; omega
  have hf : 0 ≤ clampedForearmIdxB s ∧ clampedForearmIdxB s ≤ 1 := by
    unfold clampedForearmIdxB; omega
  have hw : 0 ≤ clampedWristIdxB (adjustedWristScoreB s bent twisted) ∧
      clampedWristIdxB (adjustedWristScoreB s bent twisted) ≤ 2 := by
    unfold clampedWristIdxB; omega
  have hsa : 0 ≤ clampedScoreAIdx s ∧ clampedScoreAIdx s ≤ 11 := by
    unfold clampedScoreAIdx; omega
  have hsb : 0 ≤ clampedScoreBIdx s ∧ clampedScoreBIdx s ≤ 11 := by
    unfold clampedScoreBIdx; omega
  exact ⟨hn, ht, hl, ha, hf, hw, hsa, hsb,
    tableB_lookup_isSome _ _ _ hw.1 hw.2 ha.1 ha.2 hf.1 hf.2,
    tableC_lookup_isSome _ _ hsa.1 hsa.2 hsb.1 hsb.2,
    tableA_lookup_isSome_iff _ _ _ hl.1 hl.2 ht.1 ht.2 hn.1 hn.2⟩

/-- Claim C1, witness: the amended clamp-safety statement at score 0 with
every adjustment flag off. -/
theorem tableIdx_clamp_safety_witness :
    (0 ≤ clampedNeckIdxA (adjustedNeckScoreA 0 false) ∧
      clampedNeckIdxA (adjustedNeckScoreA 0 false) ≤ 5) ∧
    (0 ≤ clampedTrunkIdxA (adjustedTrunkScoreA 0 false) ∧
      clampedTrunkIdxA (adjustedTrunkScoreA 0 false) ≤ 4) ∧
    (0 ≤ clampedLegsIdxA 0 ∧ clampedLegsIdxA 0 ≤ 1) ∧
    (0 ≤ clampedArmIdxB (adjustedUpperArmScoreB 0 false false false) ∧
      clampedArmIdxB (adjustedUpperArmScoreB 0 false false false) ≤ 5) ∧
    (0 ≤ clampedForearmIdxB 0 ∧ clampedForearmIdxB 0 ≤ 1) ∧
    (0 ≤ clampedWristIdxB (adjustedWristScoreB 0 false false) ∧
      clampedWristIdxB (adjustedWristScoreB 0 false false) ≤ 2) ∧
    (0 ≤ clampedScoreAIdx 0 ∧ clampedScoreAIdx 0 ≤ 11) ∧
    (0 ≤ clampedScoreBIdx 0 ∧ clampedScoreBIdx 0 ≤ 11) ∧
    (listGet3? tableB (clampedWristIdxB (adjustedWristScoreB 0 false false))
      (clampedArmIdxB (adjustedUpperArmScoreB 0 false false false))
      (clampedForearmIdxB 0)).isSome ∧
    (listGet2? tableC (clampedScoreAIdx 0) (clampedScoreBIdx 0)).isSome ∧
    ((listGet3? tableA (clampedLegsIdxA 0) (clampedTrunkIdxA (adjustedTrunkScoreA 0 false))
        (clampedNeckIdxA (adjustedNeckScoreA 0 false))).isSome ↔
      clampedNeckIdxA (adjustedNeckScoreA 0 false) ≤ 3) :=
  tableIdx_clamp_safety 0 (by norm_num) (by norm_num) false false false false false false false

/-- Claim C2, counterexample to the claim as stated: at the all-bins-zero
state (the initial state, here after an update with a lost landmark) the
source computes score 0, while the bin holding the (first) maximum
accumulated time is the first bin, whose table-declared score is 1. -/
theorem dominantBin_score_counterexample :
    (updateComponent ComponentKey.trunk "bilateral" initialTrunkSegment none 0 0).score = 0 ∧
    specDominantBinScore
      (updateComponent ComponentKey.trunk "bilateral" initialTrunkSegment none 0 0).exposureTimeBins
      ComponentKey.trunk = 1 ∧
    (0 : ℤ) ≠ 1 := by
  refine ⟨rfl, ?_, by decide⟩
  decide

/-- Claim C2, amended: after every update the segment's score equals
`calculateScoreFromBins` of its current bins; whenever some declared bin
holds strictly positive accumulated time this equals the table-declared
score of the first bin holding the maximum accumulated time, and when no
declared bin holds positive time the score is 0 (not the first bin's
declared score). -/
theorem dominantBin_score_invariant :
    (∀ (key : ComponentKey) (legsBin : String) (st : SegmentState) (a : Option ℚ) (t dt : ℚ),
      (updateComponent key legsBin st a t dt).score =
        calculateScoreFromBins (updateComponent key legsBin st a t dt).exposureTimeBins key) ∧
    (∀ (bins : List (String × ℚ)) (key : ComponentKey),
      ((∀ b ∈ REBA_ANGLE_BINS key, lookupD bins b.label 0 ≤ 0) →
        calculateScoreFromBins bins key = 0) ∧
      ((∃ b ∈ REBA_ANGLE_BINS key, 0 < lookupD bins b.label 0) →
        calculateScoreFromBins bins key = specDominantBinScore bins key)) := by
  constructor
  · intro key legsBin st a t dt
    cases a <;> rfl
  · intro bins key
    constructor
    · intro h
      unfold calculateScoreFromBins
      rw [binFold_const bins (REBA_ANGLE_BINS key) 0 0 h]
    · rintro ⟨b, hb, hpos⟩
      have hM : (0 : ℚ) <
          ((REBA_ANGLE_BINS key).map fun c => lookupD bins c.label 0).foldl max 0 :=
        lt_of_lt_of_le hpos (mem_le_foldl_max (fun c => lookupD bins c.label 0)
          (REBA_ANGLE_BINS key) 0 b hb)
      unfold calculateScoreFromBins specDominantBinScore
      exact binFold_firstMax bins (REBA_ANGLE_BINS key) 0 0 hM

/-- Claim C2, witness: trunk bins with times 5, 7 and 2 seconds, where the
fold result agrees with the dominant-bin score (here 2, from the bin
"21-60"). -/
theorem dominantBin_score_invariant_witness :
    calculateScoreFromBins [("0-20", (5 : ℚ)), ("21-60", 7), ("61+", 2)] ComponentKey.trunk =
      specDominantBinScore [("0-20", (5 : ℚ)), ("21-60", 7), ("61+", 2)] ComponentKey.trunk :=
  (dominantBin_score_invariant.2 [("0-20", (5 : ℚ)), ("21-60", 7), ("61+", 2)]
    ComponentKey.trunk).2 ⟨⟨"21-60", RebaRange.closed 21 60, 2⟩, by decide, by decide⟩

/-- Claim C3: whenever the Table C lookup produces a value, the final REBA
score is exactly that value plus the force/load, coupling and activity
scores, with the force/load score equal to the externally supplied base
plus 1 when trunk or neck frequency exceeds 10 per minute, capped at 2, and
the activity score 1 exactly when trunk or neck exposure exceeds 60 seconds
or trunk or neck frequency exceeds 4 per minute. -/
theorem finalScore_composition (st : ScoreInputs) (c : ℤ)
    (hbase0 : 0 ≤ st.forceLoadScore) (hbase2 : st.forceLoadScore ≤ 2)
    (hC : (updateRebaScores st).tableCScore = some c) :
    (updateRebaScores st).rebaScoreFinal =
      some (c + (updateRebaScores st).forceLoadScore + (updateRebaScores st).couplingScore +
        (updateRebaScores st).activityScore) ∧
    (updateRebaScores st).forceLoadScore =
      min (st.forceLoadScore +
        (if st.trunkFrequency > 10 ∨ st.neckFrequency > 10 then 1 else 0)) 2 ∧
    0 ≤ (updateRebaScores st).forceLoadScore ∧ (updateRebaScores st).forceLoadScore ≤ 2 ∧
    (updateRebaScores st).activityScore =
      (if st.trunkExposureTime > 60 ∨ st.neckExposureTime > 60 ∨ st.trunkFrequency > 4 ∨
          st.neckFrequency > 4 then 1 else 0) := by
  refine ⟨?_, rfl, ?_, ?_, rfl⟩
  · show (Option.map _ (Option.map _ (updateRebaScores st).tableCScore)) = _
    rw [hC]
    rfl
  · show 0 ≤ min (st.forceLoadScore +
      (if st.trunkFrequency > 10 ∨ st.neckFrequency > 10 then 1 else 0)) 2
    split_ifs <;> omega
  · exact min_le_right _ _

/-- Claim C3, witness: at the all-ones posture state the Table C lookup
gives 1 and the final score is 1 + 0 + 0 + 0 = 1. -/
theorem finalScore_composition_witness :
    (updateRebaScores oneScoreInputs).tableCScore = some 1 ∧
    (updateRebaScores oneScoreInputs).rebaScoreFinal =
      some (1 + (updateRebaScores oneScoreInputs).forceLoadScore +
        (updateRebaScores oneScoreInputs).couplingScore +
        (updateRebaScores oneScoreInputs).activityScore) ∧
    (updateRebaScores oneScoreInputs).rebaScoreFinal = some 1 :=
  ⟨by decide,
    (finalScore_composition oneScoreInputs 1 (by decide) (by decide) (by decide)).1,
    by decide⟩

/-- Claim C4, counterexample to the claim as stated: the consolidated
composer does not guard its lookups, so at the reachable all-scores-zero
state every lookup-derived value, including the final score, is undefined
rather than 0; the guarded variant yields a number at the same state, and
substitutes 0 for the posture A score when the neck score 6 drives the
lookup out of the table. -/
theorem composer_lookup_guard_counterexample :
    (updateRebaScores zeroScoreInputs).postureScoreA = none ∧
    (updateRebaScores zeroScoreInputs).tableCScore = none ∧
    (updateRebaScores zeroScoreInputs).rebaScoreFinal = none ∧
    (updateRebaScoresGuarded zeroScoreInputs).postureScoreA = 1 ∧
    (updateRebaScoresGuarded zeroScoreInputs).rebaScoreFinal = 1 ∧
    (updateRebaScoresGuarded neckSixScoreInputs).postureScoreA = 0 := by
  decide

/-- Claim C4, amended: the guarded variant's composer substitutes 0 for a
failed Table A or Table B lookup and bounds the Table C indices, so for
every input state its Table C score is a well-defined integer between 1 and
12, its posture scores lie in the tables' value ranges extended by the 0
substitute, and its final score is exactly the sum of the Table C score and
the force/load, coupling and activity scores — never an undefined value. -/
theorem composer_lookup_guard (st : ScoreInputs) :
    (updateRebaScoresGuarded st).rebaScoreFinal =
      (updateRebaScoresGuarded st).tableCScore + (updateRebaScoresGuarded st).forceLoadScore +
        (updateRebaScoresGuarded st).couplingScore + st.activityScore ∧
    1 ≤ (updateRebaScoresGuarded st).tableCScore ∧
    (updateRebaScoresGuarded st).tableCScore ≤ 12 ∧
    0 ≤ (updateRebaScoresGuarded st).postureScoreA ∧
    (updateRebaScoresGuarded st).postureScoreA ≤ 9 ∧
    0 ≤ (updateRebaScoresGuarded st).postureScoreB ∧
    (updateRebaScoresGuarded st).postureScoreB ≤ 8 := by
  have hA := tableA_entry_range (clampedLegsIdxA st.legsScore)
    (clampedTrunkIdxA (adjustedTrunkScoreA st.trunkScore st.trunkTwisted))
    (clampedNeckIdxA (adjustedNeckScoreA st.neckScore st.neckTwisted))
    (by unfold clampedLegsIdxA; omega) (by unfold clampedLegsIdxA; omega)
    (by unfold clampedTrunkIdxA; omega) (by unfold clampedTrunkIdxA; omega)
    (by unfold clampedNeckIdxA; omega) (by unfold clampedNeckIdxA; omega)
  have hB := tableB_entry_range
    (clampedWristIdxB (adjustedWristScoreB st.wristScore st.wristBent st.wristTwisted))
    (clampedArmIdxB (adjustedUpperArmScoreB st.armScore st.shoulderRaised st.armAbducted
      st.armSupported))
    (clampedForearmIdxB st.forearmScore)
    (by unfold clampedWristIdxB; omega) (by unfold clampedWristIdxB; omega)
    (by unfold clampedArmIdxB; omega) (by unfold clampedArmIdxB; omega)
    (by unfold clampedForearmIdxB; omega) (by unfold clampedForearmIdxB; omega)
  have hApost : (updateRebaScoresGuarded st).postureScoreA =
      (listGet3? tableA (clampedLegsIdxA st.legsScore)
        (clampedTrunkIdxA (adjustedTrunkScoreA st.trunkScore st.trunkTwisted))
        (clampedNeckIdxA (adjustedNeckScoreA st.neckScore st.neckTwisted))).getD 0 := rfl
  have hBpost : (updateRebaScoresGuarded st).postureScoreB =
      (listGet3? tableB
        (clampedWristIdxB (adjustedWristScoreB st.wristScore st.wristBent st.wristTwisted))
        (clampedArmIdxB (adjustedUpperArmScoreB st.armScore st.shoulderRaised st.armAbducted
          st.armSupported))
        (clampedForearmIdxB st.forearmScore)).getD 0 := rfl
  have hCval := tableC_guarded_value (clampedScoreAIdx (updateRebaScoresGuarded st).postureScoreA)
    (clampedScoreBIdx (updateRebaScoresGuarded st).postureScoreB)
    (by unfold clampedScoreAIdx; omega) (by unfold clampedScoreAIdx; omega)
    (by unfold clampedScoreBIdx; omega) (by unfold clampedScoreBIdx; omega)
  have hCpost : (updateRebaScoresGuarded st).tableCScore =
      (if 0 ≤ clampedScoreAIdx (updateRebaScoresGuarded st).postureScoreA ∧
          clampedScoreAIdx (updateRebaScoresGuarded st).postureScoreA < (tableC.length : ℤ) then
        match listGet? tableC (clampedScoreAIdx (updateRebaScoresGuarded st).postureScoreA) with
        | some row =>
            if 0 ≤ clampedScoreBIdx (updateRebaScoresGuarded st).postureScoreB ∧
                clampedScoreBIdx (updateRebaScoresGuarded st).postureScoreB <
                  (row.length : ℤ) then
              (listGet? row (clampedScoreBIdx (updateRebaScoresGuarded st).postureScoreB)).getD 0
            else 0
        | none => 0
      else 0) := rfl
  refine ⟨rfl, ?_, ?_, ?_, ?_, ?_, ?_⟩
  · rw [hCpost]; exact hCval.1
  · rw [hCpost]; exact hCval.2
  · rw [hApost]; exact hA.1
  · rw [hApost]; exact hA.2
  · rw [hBpost]; exact hB.1
  · rw [hBpost]; exact hB.2

/-- Claim C5, counterexample to the claim as stated: with left ear
visibility 0.4, right ear visibility 0.35 and nose visibility 0.9 (all
detected), both ears have numeric visibility and the left ear clears the
threshold, so the claimed priority picks the left ear — but the source
picks the nose, because its ear branches also require the ear visibility
to be at least the nose visibility. -/
theorem headReference_priority_counterexample :
    selectHeadReference ceLeftEar ceRightEar ceNose = some HeadRef.nose ∧
    selectHeadReferenceSpec ceLeftEar ceRightEar ceNose = some HeadRef.leftEar ∧
    (some HeadRef.nose ≠ some HeadRef.leftEar) := by
  refine ⟨?_, ?_, by simp⟩
  · simp only [selectHeadReference, ceLeftEar, ceRightEar, ceNose, isLandmarkDetected,
      geQ, gtQ, VISIBILITY_THRESHOLD]
    norm_num
  · simp only [selectHeadReferenceSpec, specHeadFallback, ceLeftEar, ceRightEar, ceNose,
      isLandmarkDetected, VISIBILITY_THRESHOLD]
    norm_num

/-- Claim C5, amended: the source's head reference is characterized by the
branch guards in order — the left ear wins when both ear visibilities are
numeric, left at least right and left at least the nose visibility; the
right ear symmetrically; the nose when its numeric visibility strictly
exceeds both ear visibilities; otherwise the first detected of left ear,
right ear, nose — and when a winning branch's landmark is itself
undetected, no reference at all is selected (the fallback is not tried). -/
theorem headReference_priority (le re no : NormalizedLandmark) :
    (selectHeadReference le re no = some HeadRef.leftEar ↔
      ((earRuleLeftHolds le re no = true ∧ isLandmarkDetected le = true) ∨
       (earRuleLeftHolds le re no = false ∧ earRuleRightHolds le re no = false ∧
        noseRuleHolds le re no = false ∧ isLandmarkDetected le = true))) ∧
    (selectHeadReference le re no = some HeadRef.rightEar ↔
      ((earRuleLeftHolds le re no = false ∧ earRuleRightHolds le re no = true ∧
        isLandmarkDetected re = true) ∨
       (earRuleLeftHolds le re no = false ∧ earRuleRightHolds le re no = false ∧
        noseRuleHolds le re no = false ∧ isLandmarkDetected le = false ∧
        isLandmarkDetected re = true))) ∧
    (selectHeadReference le re no = some HeadRef.nose ↔
      ((earRuleLeftHolds le re no = false ∧ earRuleRightHolds le re no = false ∧
        noseRuleHolds le re no = true ∧ isLandmarkDetected no = true) ∨
       (earRuleLeftHolds le re no = false ∧ earRuleRightHolds le re no = false ∧
        noseRuleHolds le re no = false ∧ isLandmarkDetected le = false ∧
        isLandmarkDetected re = false ∧ isLandmarkDetected no = true))) ∧
    (selectHeadReference le re no = none ↔
      ((earRuleLeftHolds le re no = true ∧ isLandmarkDetected le = false) ∨
       (earRuleLeftHolds le re no = false ∧ earRuleRightHolds le re no = true ∧
        isLandmarkDetected re = false) ∨
       (earRuleLeftHolds le re no = false ∧ earRuleRightHolds le re no = false ∧
        noseRuleHolds le re no = true ∧ isLandmarkDetected no = false) ∨
       (earRuleLeftHolds le re no = false ∧ earRuleRightHolds le re no = false ∧
        noseRuleHolds le re no = false ∧ isLandmarkDetected le = false ∧
        isLandmarkDetected re = false ∧ isLandmarkDetected no = false))) := by
  have hsel : selectHeadReference le re no =
      (if earRuleLeftHolds le re no then
        (if isLandmarkDetected le then some HeadRef.leftEar else none)
      else if earRuleRightHolds le re no then
        (if isLandmarkDetected re then some HeadRef.rightEar else none)
      else if noseRuleHolds le re no then
        (if isLandmarkDetected no then some HeadRef.nose else none)
      else if isLandmarkDetected le then some HeadRef.leftEar
      else if isLandmarkDetected re then some HeadRef.rightEar
      else if isLandmarkDetected no then some HeadRef.nose
      else none) := rfl
  rw [hsel]
  cases h1 : earRuleLeftHolds le re no <;> cases h2 : earRuleRightHolds le re no <;>
    cases h3 : noseRuleHolds le re no <;> cases h4 : isLandmarkDetected le <;>
    cases h5 : isLandmarkDetected re <;> cases h6 : isLandmarkDetected no <;>
    simp

/-- Claim C6: updating a segment with a null angle preserves the exposure
time, the bins, the event count and the frequency, nulls the stored angle,
and re-derives the score from the existing bins. -/
theorem nullAngle_preserves_history (key : ComponentKey) (legsBin : String)
    (st : SegmentState) (t dt : ℚ) :
    (updateComponent key legsBin st none t dt).exposureTime = st.exposureTime ∧
    (updateComponent key legsBin st none t dt).exposureTimeBins = st.exposureTimeBins ∧
    (updateComponent key legsBin st none t dt).angle = none ∧
    (updateComponent key legsBin st none t dt).score =
      calculateScoreFromBins st.exposureTimeBins key ∧
    (updateComponent key legsBin st none t dt).eventCount = st.eventCount ∧
    (updateComponent key legsBin st none t dt).frequency = st.frequency :=
  ⟨rfl, rfl, rfl, rfl, rfl, rfl⟩

/-- Claim C7: updating with elapsed time 0 changes no bin value, leaves the
exposure time unchanged and, on any state whose score already agrees with
its bins (the invariant every reachable state satisfies), leaves the score
unchanged, for every angle input. -/
theorem zeroDelta_idempotent (key : ComponentKey) (legsBin : String) (st : SegmentState)
    (newAngle : Option ℚ) (t : ℚ)
    (h : st.score = calculateScoreFromBins st.exposureTimeBins key) :
    (updateComponent key legsBin st newAngle t 0).exposureTime = st.exposureTime ∧
    (∀ lbl, lookupD (updateComponent key legsBin st newAngle t 0).exposureTimeBins lbl 0 =
      lookupD st.exposureTimeBins lbl 0) ∧
    (updateComponent key legsBin st newAngle t 0).score = st.score := by
  cases newAngle with
  | none => exact ⟨rfl, fun lbl => rfl, h.symm⟩
  | some a =>
      refine ⟨add_zero st.exposureTime, ?_, ?_⟩
      · intro lbl
        exact lookupD_addToBin_zero st.exposureTimeBins _ lbl
      · show calculateScoreFromBins
          (addToBin st.exposureTimeBins
            (if key = ComponentKey.legs then legsBin else getRebaAngleBin |a| key) 0) key = st.score
        rw [calculateScoreFromBins_congr _ st.exposureTimeBins key
          (fun lbl => lookupD_addToBin_zero st.exposureTimeBins _ lbl), ← h]

/-- Claim C7, witness: a zero-delta update of the initial trunk state with
angle 7 at time 3 changes neither the exposure time, nor the "0-20" bin,
nor the score. -/
theorem zeroDelta_idempotent_witness :
    (updateComponent ComponentKey.trunk "bilateral" initialTrunkSegment (some 7) 3 0).exposureTime =
      initialTrunkSegment.exposureTime ∧
    lookupD (updateComponent ComponentKey.trunk "bilateral" initialTrunkSegment
      (some 7) 3 0).exposureTimeBins "0-20" 0 =
      lookupD initialTrunkSegment.exposureTimeBins "0-20" 0 ∧
    (updateComponent ComponentKey.trunk "bilateral" initialTrunkSegment (some 7) 3 0).score =
      initialTrunkSegment.score := by
  have h := zeroDelta_idempotent ComponentKey.trunk "bilateral" initialTrunkSegment
    (some 7) 3 (by decide)
  exact ⟨h.1, h.2.1 "0-20", h.2.2⟩

/-- Claim C8: the coupling score is 2 exactly when the wrist is bent or
twisted, 0 when neither holds, and never takes the value 1 or 3. -/
theorem couplingScore_binary (st : ScoreInputs) :
    ((updateRebaScores st).couplingScore = 2 ↔
      (st.wristBent = true ∨ st.wristTwisted = true)) ∧
    ((st.wristBent = false ∧ st.wristTwisted = false) →
      (updateRebaScores st).couplingScore = 0) ∧
    (updateRebaScores st).couplingScore ≠ 1 ∧
    (updateRebaScores st).couplingScore ≠ 3 := by
  have h : (updateRebaScores st).couplingScore =
      if st.wristBent || st.wristTwisted then 2 else 0 := rfl
  cases hb : st.wristBent <;> cases ht : st.wristTwisted <;>
    simp [h, hb, ht]

/-- Claim C8, witness: with neither wrist flag set the coupling score is 0. -/
theorem couplingScore_binary_witness :
    (updateRebaScores oneScoreInputs).couplingScore = 0 :=
  (couplingScore_binary oneScoreInputs).2.1 ⟨rfl, rfl⟩

/-- Claim C9: the risk classification returns the negligible label when the
score is at most 1, the low label up to 3, the medium label up to 7, the
high label up to 10, and the very-high label above 10. -/
theorem riskLevel_thresholds (s : ℚ) :
    (s ≤ 1 → getRebaRiskLevel s = "negligible risk, no action required") ∧
    (1 < s → s ≤ 3 → getRebaRiskLevel s = "low risk, change may be needed") ∧
    (3 < s → s ≤ 7 → getRebaRiskLevel s = "medium risk, further investigation, change soon") ∧
    (7 < s → s ≤ 10 → getRebaRiskLevel s = "high risk, investigate and implement change") ∧
    (10 < s → getRebaRiskLevel s = "very high risk, implement change") := by
  unfold getRebaRiskLevel
  refine ⟨fun h1 => if_pos h1, fun h1 h3 => ?_, fun h3 h7 => ?_, fun h7 h10 => ?_,
    fun h10 => ?_⟩
  · rw [if_neg (by linarith), if_pos h3]
  · rw [if_neg (by linarith), if_neg (by linarith), if_pos h7]
  · rw [if_neg (by linarith), if_neg (by linarith), if_neg (by linarith), if_pos h10]
  · rw [if_neg (by linarith), if_neg (by linarith), if_neg (by linarith),
      if_neg (by linarith)]

/-- Claim C9, witness: one concrete score per risk band. -/
theorem riskLevel_thresholds_witness :
    getRebaRiskLevel 1 = "negligible risk, no action required" ∧
    getRebaRiskLevel 2 = "low risk, change may be needed" ∧
    getRebaRiskLevel 5 = "medium risk, further investigation, change soon" ∧
    getRebaRiskLevel 9 = "high risk, investigate and implement change" ∧
    getRebaRiskLevel 12 = "very high risk, implement change" :=
  ⟨(riskLevel_thresholds 1).1 (by norm_num),
   (riskLevel_thresholds 2).2.1 (by norm_num) (by norm_num),
   (riskLevel_thresholds 5).2.2.1 (by norm_num) (by norm_num),
   (riskLevel_thresholds 9).2.2.2.1 (by norm_num) (by norm_num),
   (riskLevel_thresholds 12).2.2.2.2 (by norm_num)⟩

/-- Claim C10: an absolute angle strictly between 20 and 21 degrees matches
no declared range for trunk, neck, arm, forearm or wrist and falls into the
default "0-20" bin, and likewise one strictly between 60 and 61 degrees for
the trunk-shaped tables. -/
theorem binGap_defaults (a : ℚ) :
    (20 < a → a < 21 →
      getRebaAngleBin a ComponentKey.trunk = "0-20" ∧
      getRebaAngleBin a ComponentKey.neck = "0-20" ∧
      getRebaAngleBin a ComponentKey.arm = "0-20" ∧
      getRebaAngleBin a ComponentKey.forearm = "0-20" ∧
      getRebaAngleBin a ComponentKey.wrist = "0-20") ∧
    (60 < a → a < 61 →
      getRebaAngleBin a ComponentKey.trunk = "0-20" ∧
      getRebaAngleBin a ComponentKey.arm = "0-20" ∧
      getRebaAngleBin a ComponentKey.forearm = "0-20" ∧
      getRebaAngleBin a ComponentKey.wrist = "0-20") := by
  constructor
  · intro h20 h21
    have habs : |a| = a := abs_of_pos (by linarith)
    have htrunk : getRebaAngleBin a ComponentKey.trunk = "0-20" := by
      simp only [getRebaAngleBin, REBA_ANGLE_BINS, findBin, habs]
      rw [if_neg (by push_cast; rintro ⟨hx, hy⟩; linarith),
        if_neg (by push_cast; rintro ⟨hx, hy⟩; linarith),
        if_neg (by push_cast; intro hx; linarith)]
    have hneck : getRebaAngleBin a ComponentKey.neck = "0-20" := by
      simp only [getRebaAngleBin, REBA_ANGLE_BINS, findBin, habs]
      rw [if_neg (by push_cast; rintro ⟨hx, hy⟩; linarith),
        if_neg (by push_cast; intro hx; linarith)]
    exact ⟨htrunk, hneck, htrunk, htrunk, htrunk⟩
  · intro h60 h61
    have habs : |a| = a := abs_of_pos (by linarith)
    have htrunk : getRebaAngleBin a ComponentKey.trunk = "0-20" := by
      simp only [getRebaAngleBin, REBA_ANGLE_BINS, findBin, habs]
      rw [if_neg (by push_cast; rintro ⟨hx, hy⟩; linarith),
        if_neg (by push_cast; rintro ⟨hx, hy⟩; linarith),
        if_neg (by push_cast; intro hx; linarith)]
    exact ⟨htrunk, htrunk, htrunk, htrunk⟩

/-- Claim C10, witness: the gap angles 20.5 and 60.5 degrees land in the
default "0-20" bin. -/
theorem binGap_defaults_witness :
    getRebaAngleBin (41 / 2) ComponentKey.trunk = "0-20" ∧
    getRebaAngleBin (121 / 2) ComponentKey.wrist = "0-20" :=
  ⟨((binGap_defaults (41 / 2)).1 (by norm_num) (by norm_num)).1,
   ((binGap_defaults (121 / 2)).2 (by norm_num) (by norm_num)).2.2.2⟩

end Reba
